import Mathlib

/-!
Verification of the development HTTP server `serve.py`.

The script changes the working directory to the project root, binds a
TCP socket on port 8000, and serves static files with a handler that
adds three CORS headers to every response and overrides the MIME type
for `.js` paths. We embed the handler's two overridden methods as pure
functions and the top-level script as a trace of observable effects,
parameterised by the outcomes the environment decides (bind success,
interrupt).
-/

namespace Serve

/-- An absolute filesystem path, as its list of components. -/
abbrev FsPath := List String

/-- `os.path.dirname` on an absolute path: drop the last component. -/
def dirname (p : FsPath) : FsPath := p.dropLast

/-- `project_root = os.path.dirname(os.path.dirname(os.path.abspath(__file__)))`
(serve.py line 16), applied to the script's absolute file path. -/
def project_root (scriptFile : FsPath) : FsPath := dirname (dirname scriptFile)

/-- `PORT = 8000` (serve.py line 19). -/
def PORT : Nat := 8000

/-- Python `str.endswith`: request paths are modelled as lists of
characters, and `endsWith s suffix` is true when `suffix` is a suffix
of `s`. -/
def endsWith (s suffix : List Char) : Bool := List.isSuffixOf suffix s

/-- The suffix `".js"` tested on serve.py line 32. -/
def jsSuffix : List Char := [ '.', 'j', 's']

/-- The two possible shapes of a value returned by
`CustomHTTPRequestHandler.guess_type`: a bare mimetype string
(the `.js` branch, line 33) or a `(mimetype, encoding)` pair
(the fall-through, line 34). -/
inductive GuessResult where
  | bare (mimetype : String)
  | pair (mimetype : Option String) (encoding : Option String)
  deriving DecidableEq, Repr

/-- `CustomHTTPRequestHandler.guess_type` (serve.py lines 29-34).
`base` stands for `super().guess_type`, the platform's default
extension-to-type resolution; the code destructures its result into
`mimetype, encoding`, so `base` must produce a two-element value, which
the embedding records in its type. -/
def guess_type (base : List Char → Option String × Option String)
    (path : List Char) : GuessResult :=
  let mimetype := (base path).1
  let encoding := (base path).2
  if endsWith path jsSuffix then
    GuessResult.bare "application/javascript"
  else
    GuessResult.pair mimetype encoding

/-- The three CORS headers sent by `end_headers` (serve.py lines 24-26),
in the order the code sends them. -/
def corsHeaders : List (String × String) :=
  [ ("Access-Control-Allow-Origin", "*")
  , ("Access-Control-Allow-Methods", "GET, POST, OPTIONS")
  , ("Access-Control-Allow-Headers", "Content-Type") ]

/-- `CustomHTTPRequestHandler.end_headers` (serve.py lines 22-27):
the headers the base logic already buffered, followed by the three
CORS headers, are what `super().end_headers()` flushes to the wire. -/
def end_headers (already : List (String × String)) : List (String × String) :=
  already ++ corsHeaders

/-- How many headers named `name` a header list carries. -/
def headerCount (hs : List (String × String)) (name : String) : Nat :=
  (hs.filter (fun p => p.1 == name)).length

/-- Observable effects of the top-level script. -/
inductive Effect where
  | chdir (dir : FsPath)
  | bindSocket (host : String) (port : Nat)
  | print (line : String)
  | printErr (line : String)
  | serveForever
  | exit (code : Nat)
  deriving DecidableEq, Repr

/-- Whether an effect is a change of working directory. -/
def Effect.isChdir : Effect → Bool
  | .chdir _ => true
  | _ => false

/-- Whether an effect is a socket bind attempt. -/
def Effect.isBindSocket : Effect → Bool
  | .bindSocket _ _ => true
  | _ => false

/-- The base URL printed at startup, `http://localhost:{PORT}`. -/
def localhostBase : String := "http://localhost:" ++ toString PORT

/-- The five lines printed on successful startup (serve.py lines 38-42). -/
def startupBanner : List String :=
  [ "Serving at " ++ localhostBase
  , "Examples available at:"
  , "  " ++ localhostBase ++ "/examples/basic-usage-simple.html"
  , "  " ++ localhostBase ++ "/examples/basic-usage.html"
  , "\nPress Ctrl+C to stop the server" ]

/-- The effect trace of running serve.py (lines 16-47). `scriptFile` is
the script's absolute path; `bindOK` is whether the bind on line 37
succeeds; `interrupted` is whether a `KeyboardInterrupt` eventually
reaches the accept loop. On bind failure the uncaught `OSError`
terminates the interpreter with a traceback on stderr and exit status 1;
on interrupt the handler on lines 45-47 prints the stop notice and calls
`sys.exit(0)`. -/
def mainTrace (scriptFile : FsPath) (bindOK interrupted : Bool) : List Effect :=
  [Effect.chdir (project_root scriptFile), Effect.bindSocket "" PORT] ++
    (if bindOK then
      startupBanner.map Effect.print ++ [Effect.serveForever] ++
        (if interrupted then
          [Effect.print "\nServer stopped", Effect.exit 0]
        else [])
    else
      [Effect.printErr "OSError", Effect.exit 1])

/-- The prefix of a trace before the accept loop starts. -/
def beforeServe (t : List Effect) : List Effect :=
  t.takeWhile (fun e => decide (e ≠ Effect.serveForever))

/-- A parsed incoming HTTP request: either a malformed request line or a
GET of a path. -/
inductive Request where
  | malformed
  | get (path : List Char)
  deriving DecidableEq, Repr

/-- Modelled from the spec: the request-to-status behavior of the base
static-file-serving logic (`http.server.SimpleHTTPRequestHandler`),
which `CustomHTTPRequestHandler` inherits unchanged and whose code is
not part of this repository. Per the spec, a malformed request line is
answered 400, a path with no corresponding file is answered 404, and an
existing file is answered 200; the handler answers locally and never
crashes the process, which the embedding reflects by being a total
function. -/
def serveStatus (fileExists : List Char → Bool) : Request → Nat
  | Request.malformed => 400
  | Request.get p => if fileExists p then 200 else 404

/-! Helper lemmas shared by the claim theorems. -/

theorem guess_type_of_js (base : List Char → Option String × Option String)
    (path : List Char) (h : endsWith path jsSuffix = true) :
    guess_type base path = GuessResult.bare "application/javascript" := by
  simp [guess_type, h]

theorem guess_type_of_not_js (base : List Char → Option String × Option String)
    (path : List Char) (h : endsWith path jsSuffix = false) :
    guess_type base path = GuessResult.pair (base path).1 (base path).2 := by
  simp [guess_type, h]

theorem endsWith_js_of_append (pre : List Char) (c1 c2 : Char)
    (h : endsWith (pre ++ [ '.', c1, c2]) jsSuffix = true) :
    c1 = 'j' ∧ c2 = 's' := by
  have hsuf : jsSuffix <:+ pre ++ [ '.', c1, c2] := by
    have := h
    unfold endsWith at this
    exact List.isSuffixOf_iff_suffix.mp this
  obtain ⟨t, ht⟩ := hsuf
  have hrev := congrArg List.reverse ht
  simp [jsSuffix, List.reverse_append] at hrev
  obtain ⟨h1, h2, -⟩ := hrev
  exact ⟨h2.symm, h1.symm⟩

theorem headerCount_end_headers (already : List (String × String))
    (name : String) (hn : ∀ p ∈ already, p.1 ≠ name) :
    headerCount (end_headers already) name = headerCount corsHeaders name := by
  have hfil : already.filter (fun p => p.1 == name) = [] := by
    rw [List.filter_eq_nil_iff]
    intro p hp
    simpa using hn p hp
  simp [headerCount, end_headers, List.filter_append, hfil]

/-! Claim theorems. -/

/-- C1: for every request path ending in `.js`, `guess_type` returns
exactly the bare type `application/javascript` with no encoding,
regardless of the platform's default extension-to-type table `base`. -/
theorem C1_js_override (base : List Char → Option String × Option String)
    (path : List Char) (h : endsWith path jsSuffix = true) :
    guess_type base path = GuessResult.bare "application/javascript" :=
  guess_type_of_js base path h

theorem C1_js_override_witness :
    guess_type (fun _ => (some "text/plain", some "gzip")) [ 'a', '.', 'j', 's'] =
      GuessResult.bare "application/javascript" :=
  C1_js_override (fun _ => (some "text/plain", some "gzip")) [ 'a', '.', 'j', 's']
    (by decide)

/-- C2: for every request path not ending in `.js`, `guess_type` returns
the platform's default `(type, encoding)` pair unchanged. -/
theorem C2_default_passthrough (base : List Char → Option String × Option String)
    (path : List Char) (h : endsWith path jsSuffix = false) :
    guess_type base path = GuessResult.pair (base path).1 (base path).2 :=
  guess_type_of_not_js base path h

theorem C2_default_passthrough_witness :
    guess_type (fun _ => (some "text/html", none)) [ 'a', '.', 'c', 's', 's'] =
      GuessResult.pair (some "text/html") none :=
  C2_default_passthrough (fun _ => (some "text/html", none))
    [ 'a', '.', 'c', 's', 's'] (by decide)

/-- C3: every response's header block is the base logic's headers with
the three CORS headers `Access-Control-Allow-Origin: *`,
`Access-Control-Allow-Methods: GET, POST, OPTIONS` and
`Access-Control-Allow-Headers: Content-Type` appended after them, each
present exactly once whenever the base logic did not already set a
header of that name (which the base static-file logic never does). -/
theorem C3_cors_headers (already : List (String × String))
    (h : ∀ p ∈ already, p.1 ≠ "Access-Control-Allow-Origin" ∧
        p.1 ≠ "Access-Control-Allow-Methods" ∧
        p.1 ≠ "Access-Control-Allow-Headers") :
    end_headers already = already ++ corsHeaders ∧
    ("Access-Control-Allow-Origin", "*") ∈ end_headers already ∧
    ("Access-Control-Allow-Methods", "GET, POST, OPTIONS") ∈ end_headers already ∧
    ("Access-Control-Allow-Headers", "Content-Type") ∈ end_headers already ∧
    headerCount (end_headers already) "Access-Control-Allow-Origin" = 1 ∧
    headerCount (end_headers already) "Access-Control-Allow-Methods" = 1 ∧
    headerCount (end_headers already) "Access-Control-Allow-Headers" = 1 := by
  refine ⟨rfl, ?_, ?_, ?_, ?_, ?_, ?_⟩
  · simp [end_headers, corsHeaders]
  · simp [end_headers, corsHeaders]
  · simp [end_headers, corsHeaders]
  · rw [headerCount_end_headers already _ (fun p hp => (h p hp).1)]; rfl
  · rw [headerCount_end_headers already _ (fun p hp => (h p hp).2.1)]; rfl
  · rw [headerCount_end_headers already _ (fun p hp => (h p hp).2.2)]; rfl

theorem C3_cors_headers_witness :
    end_headers [("Content-Type", "text/html")] =
      [("Content-Type", "text/html")] ++ corsHeaders ∧
    ("Access-Control-Allow-Origin", "*") ∈
      end_headers [("Content-Type", "text/html")] ∧
    ("Access-Control-Allow-Methods", "GET, POST, OPTIONS") ∈
      end_headers [("Content-Type", "text/html")] ∧
    ("Access-Control-Allow-Headers", "Content-Type") ∈
      end_headers [("Content-Type", "text/html")] ∧
    headerCount (end_headers [("Content-Type", "text/html")])
      "Access-Control-Allow-Origin" = 1 ∧
    headerCount (end_headers [("Content-Type", "text/html")])
      "Access-Control-Allow-Methods" = 1 ∧
    headerCount (end_headers [("Content-Type", "text/html")])
      "Access-Control-Allow-Headers" = 1 :=
  C3_cors_headers [("Content-Type", "text/html")] (by decide)

/-- C4: the first effect of every run is the change of working directory
to the parent directory of the script's own location (the double
`dirname` of the script's absolute path), before the socket is bound or
any connection is accepted, and no other change of working directory
ever occurs. -/
theorem C4_chdir_once (scriptFile : FsPath) (bindOK interrupted : Bool) :
    (mainTrace scriptFile bindOK interrupted).head? =
      some (Effect.chdir (project_root scriptFile)) ∧
    (mainTrace scriptFile bindOK interrupted).filter Effect.isChdir =
      [Effect.chdir (project_root scriptFile)] := by
  cases bindOK <;> cases interrupted <;>
    simp [mainTrace, startupBanner, Effect.isChdir, List.filter_append,
      List.filter_map]

/-- C5: the second effect of every run is the single bind attempt on the
wildcard address with fixed port 8000; there is never a second attempt,
and when the bind fails the run ends immediately with an error printed
to stderr and exit status 1 (non-zero). -/
theorem C5_bind_fail_fast (scriptFile : FsPath) (bindOK interrupted : Bool) :
    (mainTrace scriptFile bindOK interrupted)[1]? =
      some (Effect.bindSocket "" 8000) ∧
    (mainTrace scriptFile bindOK interrupted).filter Effect.isBindSocket =
      [Effect.bindSocket "" 8000] ∧
    (bindOK = false →
      mainTrace scriptFile bindOK interrupted =
        [Effect.chdir (project_root scriptFile), Effect.bindSocket "" 8000,
         Effect.printErr "OSError", Effect.exit 1]) := by
  cases bindOK <;> cases interrupted <;>
    simp [mainTrace, startupBanner, PORT, Effect.isBindSocket,
      List.filter_append, List.filter_map]

theorem C5_bind_fail_fast_witness :
    (mainTrace ["root", "serve.py"] false false)[1]? =
      some (Effect.bindSocket "" 8000) ∧
    (mainTrace ["root", "serve.py"] false false).filter Effect.isBindSocket =
      [Effect.bindSocket "" 8000] ∧
    mainTrace ["root", "serve.py"] false false =
      [Effect.chdir (project_root ["root", "serve.py"]),
       Effect.bindSocket "" 8000, Effect.printErr "OSError", Effect.exit 1] := by
  have h := C5_bind_fail_fast ["root", "serve.py"] false false
  exact ⟨h.1, h.2.1, h.2.2 rfl⟩

/-- C6: when the accept loop is interrupted, the run prints the stop
notice and its final effect is an exit with status 0. -/
theorem C6_interrupt_clean_exit (scriptFile : FsPath) :
    Effect.print "\nServer stopped" ∈ mainTrace scriptFile true true ∧
    (mainTrace scriptFile true true).getLast? = some (Effect.exit 0) := by
  constructor
  · simp [mainTrace, startupBanner]
  · simp [mainTrace, startupBanner]

/-- C7: on successful startup the run prints, before the accept loop
starts, the serving-URL line, the two literal example URLs
`/examples/basic-usage-simple.html` and `/examples/basic-usage.html`
under `http://localhost:8000`, and the Ctrl+C hint; the accept loop
does start. -/
theorem C7_startup_banner (scriptFile : FsPath) (interrupted : Bool) :
    Effect.print ("Serving at " ++ localhostBase) ∈
      beforeServe (mainTrace scriptFile true interrupted) ∧
    Effect.print ("  " ++ localhostBase ++ "/examples/basic-usage-simple.html") ∈
      beforeServe (mainTrace scriptFile true interrupted) ∧
    Effect.print ("  " ++ localhostBase ++ "/examples/basic-usage.html") ∈
      beforeServe (mainTrace scriptFile true interrupted) ∧
    Effect.print "\nPress Ctrl+C to stop the server" ∈
      beforeServe (mainTrace scriptFile true interrupted) ∧
    Effect.serveForever ∈ mainTrace scriptFile true interrupted := by
  cases interrupted <;>
    simp [mainTrace, startupBanner, beforeServe, List.takeWhile, localhostBase]

/-- C8: per-request errors are answered locally with the appropriate
status and cannot crash the process (the handler is a total function):
a malformed request line is answered 400, and a request for a path with
no corresponding file is answered 404. -/
theorem C8_request_errors (fileExists : List Char → Bool) (p : List Char)
    (hp : fileExists p = false) :
    serveStatus fileExists Request.malformed = 400 ∧
    serveStatus fileExists (Request.get p) = 404 := by
  constructor
  · rfl
  · simp [serveStatus, hp]

theorem C8_request_errors_witness :
    serveStatus (fun _ => false) Request.malformed = 400 ∧
    serveStatus (fun _ => false) (Request.get [ '/', 'x']) = 404 :=
  C8_request_errors (fun _ => false) [ '/', 'x'] rfl

/-- C9: the return shape of `guess_type` differs by branch: on a `.js`
path it is a bare string and not a `(type, encoding)` pair for any pair
of values, while on any other path it is the pair destructured from the
base handler's result and not a bare string. -/
theorem C9_return_shape (base : List Char → Option String × Option String)
    (path : List Char) :
    (endsWith path jsSuffix = true →
      guess_type base path = GuessResult.bare "application/javascript" ∧
      ∀ m e, guess_type base path ≠ GuessResult.pair m e) ∧
    (endsWith path jsSuffix = false →
      guess_type base path = GuessResult.pair (base path).1 (base path).2 ∧
      ∀ s, guess_type base path ≠ GuessResult.bare s) := by
  constructor
  · intro h
    rw [guess_type_of_js base path h]
    exact ⟨rfl, fun m e hc => GuessResult.noConfusion hc⟩
  · intro h
    rw [guess_type_of_not_js base path h]
    exact ⟨rfl, fun s hc => GuessResult.noConfusion hc⟩

theorem C9_return_shape_witness :
    (guess_type (fun _ => (some "text/plain", none)) [ 'a', '.', 'j', 's'] =
        GuessResult.bare "application/javascript" ∧
      guess_type (fun _ => (some "text/plain", none)) [ 'a', '.', 'j', 's'] ≠
        GuessResult.pair (some "text/plain") none) ∧
    (guess_type (fun _ => (some "text/plain", none)) [ 'a', '.', 'c'] =
        GuessResult.pair (some "text/plain") none ∧
      guess_type (fun _ => (some "text/plain", none)) [ 'a', '.', 'c'] ≠
        GuessResult.bare "application/javascript") := by
  have h1 := ((C9_return_shape (fun _ => (some "text/plain", none))
    [ 'a', '.', 'j', 's']).1 (by decide))
  have h2 := ((C9_return_shape (fun _ => (some "text/plain", none))
    [ 'a', '.', 'c']).2 (by decide))
  exact ⟨⟨h1.1, h1.2 (some "text/plain") none⟩,
    ⟨h2.1, h2.2 "application/javascript"⟩⟩

/-- C10: the `.js` override is case-sensitive: for a path whose last
three characters are a dot followed by any two characters other than
exactly lowercase `js` (for example `.JS`, `.Js` or `.jS`), `guess_type`
does not apply the override and returns the platform's default pair. -/
theorem C10_case_sensitive (base : List Char → Option String × Option String)
    (pre : List Char) (c1 c2 : Char) (h : c1 ≠ 'j' ∨ c2 ≠ 's') :
    guess_type base (pre ++ [ '.', c1, c2]) =
      GuessResult.pair (base (pre ++ [ '.', c1, c2])).1
        (base (pre ++ [ '.', c1, c2])).2 := by
  have hfalse : endsWith (pre ++ [ '.', c1, c2]) jsSuffix = false := by
    cases hb : endsWith (pre ++ [ '.', c1, c2]) jsSuffix
    · rfl
    · obtain ⟨h1, h2⟩ := endsWith_js_of_append pre c1 c2 hb
      cases h with
      | inl hj => exact absurd h1 hj
      | inr hs => exact absurd h2 hs
  exact guess_type_of_not_js base (pre ++ [ '.', c1, c2]) hfalse

theorem C10_case_sensitive_witness :
    guess_type (fun _ => (some "text/plain", none)) ([ 'a'] ++ [ '.', 'J', 'S']) =
      GuessResult.pair (some "text/plain") none :=
  C10_case_sensitive (fun _ => (some "text/plain", none)) [ 'a'] 'J' 'S'
    (Or.inl (by decide))

end Serve
